import Mathlib

/-!
Verification development for the warp-geometry core of the
three-projection-mapper repository.

The embedding follows the TypeScript source:

* JavaScript numbers are modelled by `JSNum`: either an exact rational
  (an integer pair, kept with positive denominator) or one of the IEEE
  special values NaN, +Infinity, -Infinity.  JavaScript arithmetic is
  total: division by zero yields an infinity or NaN instead of raising,
  and every operation involving NaN returns NaN; comparisons with NaN
  are false.  Rounding error of 64-bit doubles and the sign of zero are
  not modelled, which is exact for the finite rational computations the
  claims below evaluate; no claim here depends on the sign of a zero or
  of an infinity.
* The minimal numeric.js shim of src/src/windows/WindowManager.ts
  (Gauss-Jordan inverse, matrix products, transpose) is translated
  function by function.  The one JavaScript exception that the shim can
  raise (an access to the undefined row A[-1] when the pivot search
  finds only NaN entries) is modelled by returning `none`; the caller
  getNormalizationCoefficients catches it and falls back to the
  identity coefficients, exactly as the try/catch in the source does.
* The MeshWarper of src/src/content/ContentManager.ts is modelled as an
  explicit state record holding the corner, grid and reference point
  sets, the per-corner last valid positions and the persisted snapshot;
  its drag handler, resize and storage code are translated in terms of
  that record.
-/

/-- A JavaScript number: NaN, a signed infinity, or a finite value held as
an exact rational `num / den`.  All constructors used in this file keep
`den` positive. -/
inductive JSNum where
  | nan : JSNum
  | inf : Bool → JSNum
  | fin : Int → Int → JSNum
deriving DecidableEq, Repr

namespace JSNum

/-- Build a finite value, normalising the denominator to be positive and
the fraction to lowest terms.  The reduction is a canonical choice of
representative and does not change the rational value an operation
produces. -/
def mkFin (n d : Int) : JSNum :=
  let g : Int := Int.gcd n d
  if d < 0 then fin (-n / g) (-d / g) else fin (n / g) (d / g)

/-- The integer literals of the source, as finite values. -/
def ofInt (n : Int) : JSNum := fin n 1

/-- True exactly on finite values. -/
def isFinite : JSNum → Bool
  | fin _ _ => true
  | _ => false

/-- True exactly on NaN. -/
def isNan : JSNum → Bool
  | nan => true
  | _ => false

/-- JavaScript addition. -/
def jadd : JSNum → JSNum → JSNum
  | nan, _ => nan
  | _, nan => nan
  | inf s, inf t => if s = t then inf s else nan
  | inf s, fin _ _ => inf s
  | fin _ _, inf s => inf s
  | fin a b, fin c d => mkFin (a * d + c * b) (b * d)

/-- JavaScript negation. -/
def jneg : JSNum → JSNum
  | nan => nan
  | inf s => inf (!s)
  | fin a b => fin (-a) b

/-- JavaScript subtraction. -/
def jsub (a b : JSNum) : JSNum := jadd a (jneg b)

/-- JavaScript multiplication (with Infinity * 0 = NaN). -/
def jmul : JSNum → JSNum → JSNum
  | nan, _ => nan
  | _, nan => nan
  | inf s, inf t => inf (s = t)
  | inf s, fin a _ => if a = 0 then nan else inf (decide (0 < a) = s)
  | fin a _, inf s => if a = 0 then nan else inf (decide (0 < a) = s)
  | fin a b, fin c d => mkFin (a * c) (b * d)

/-- JavaScript division: a nonzero finite value divided by zero is a signed
infinity, 0 / 0 is NaN, anything divided by an infinity is 0. -/
def jdiv : JSNum → JSNum → JSNum
  | nan, _ => nan
  | _, nan => nan
  | inf _, inf _ => nan
  | inf s, fin a _ => if a = 0 then inf s else inf (decide (0 < a) = s)
  | fin _ _, inf _ => fin 0 1
  | fin a b, fin c d =>
    if c = 0 then (if a = 0 then nan else inf (decide (0 < a)))
    else mkFin (a * d) (b * c)

/-- Math.abs. -/
def jabs : JSNum → JSNum
  | nan => nan
  | inf _ => inf true
  | fin a b => fin a.natAbs b

/-- The JavaScript strict less-than comparison; false whenever an operand
is NaN. -/
def jlt : JSNum → JSNum → Bool
  | nan, _ => false
  | _, nan => false
  | inf s, inf t => !s && t
  | inf s, fin _ _ => !s
  | fin _ _, inf t => t
  | fin a b, fin c d => decide (a * d < c * b)

/-- The JavaScript strict greater-than comparison. -/
def jgt (a b : JSNum) : Bool := jlt b a

/-- The JavaScript less-or-equal comparison; false whenever an operand is
NaN. -/
def jle : JSNum → JSNum → Bool
  | nan, _ => false
  | _, nan => false
  | inf s, inf t => !s || (s && t)
  | inf s, fin _ _ => !s
  | fin _ _, inf t => t
  | fin a b, fin c d => decide (a * d ≤ c * b)

/-- Math.round: half-way values round toward positive infinity, so
round x = floor (x + 1/2) for finite x. -/
def jround : JSNum → JSNum
  | nan => nan
  | inf s => inf s
  | fin a b => fin (Int.fdiv (2 * a + b) (2 * b)) 1

/-- The rational value of a finite JSNum, used only in theorem statements
to speak about the real-number value a representation denotes. -/
def val : JSNum → ℚ
  | nan => 0
  | inf _ => 0
  | fin a b => (a : ℚ) / (b : ℚ)

end JSNum

open JSNum

/-- Vectors of JavaScript numbers (rows of the numeric.js matrices). -/
abbrev JVec := List JSNum

/-- Matrices of JavaScript numbers. -/
abbrev JMat := List JVec

/-- Matrix entry access; out-of-range reads give NaN, matching the NaN that
JavaScript arithmetic produces from an undefined element. -/
def mEntry (A : JMat) (i j : Nat) : JSNum := (A.getD i []).getD j nan

/-- Swap two rows of a matrix (the destructuring swap in numeric.inv). -/
def rowSwap (A : JMat) (i j : Nat) : JMat :=
  let ri := A.getD i []
  let rj := A.getD j []
  (A.set i rj).set j ri

/-- numeric.identity. -/
def identityMat (n : Nat) : JMat :=
  (List.range n).map (fun i =>
    (List.range n).map (fun j => if i = j then ofInt 1 else ofInt 0))

/-- The pivot search of numeric.inv at column j: scan rows i = j .. m-1 for
the largest absolute entry, starting from v0 = -1, keeping the first
maximum (the comparison is strict).  When every scanned entry is NaN the
comparison NaN > v0 is always false and i0 stays -1, exactly as in the
source. -/
def pivotSearch (A : JMat) (m j : Nat) : Int × JSNum :=
  ((List.range m).drop j).foldl
    (fun acc i =>
      let k := jabs (mEntry A i j)
      if jgt k acc.2 then (Int.ofNat i, k) else acc)
    (-1, ofInt (-1))

/-- Apply one Nat-indexed update to every entry of a row. -/
def rowMapIdx (f : Nat → JSNum → JSNum) : JVec → JVec :=
  go 0
where
  go : Nat → JVec → JVec
    | _, [] => []
    | k, v :: vs => f k v :: go (k + 1) vs

/-- Apply one Nat-indexed update to every row of a matrix. -/
def matMapIdx (f : Nat → JVec → JVec) : JMat → JMat :=
  go 0
where
  go : Nat → JMat → JMat
    | _, [] => []
    | i, r :: rs => f i r :: go (i + 1) rs

/-- One column step of numeric.inv.  If the pivot search left i0 = -1 the
source swaps the undefined row A[-1] into place and the next element
access throws a TypeError; that exception is modelled as `none`.
Otherwise: swap the pivot row up, divide row j of A (columns j..n-1) and
the whole row j of I by the pivot (division by a zero pivot silently
produces NaN / Infinity entries, as in JavaScript), then for every other
row i subtract the x = A[i][j] multiple of row j from columns j+1..n-1 of
A and from the whole row of I.  The source iterates the elimination rows
downward and updates the columns of I pairwise in a manually unrolled
descending loop; the row updates are independent of each other and for
the even n = 8 used here the unrolled loop touches each column exactly
once, so they are written as a single indexed map. -/
def invStep (m : Nat) (st : JMat × JMat) (j : Nat) : Option (JMat × JMat) :=
  let A := st.1
  let I := st.2
  let i0 := (pivotSearch A m j).1
  if i0 < 0 then none
  else
    let A1 := rowSwap A i0.toNat j
    let I1 := rowSwap I i0.toNat j
    let x := mEntry A1 j j
    let A2 := A1.set j (rowMapIdx (fun k v => if j ≤ k then jdiv v x else v) (A1.getD j []))
    let I2 := I1.set j ((I1.getD j []).map (fun v => jdiv v x))
    let Arow := A2.getD j []
    let Irow := I2.getD j []
    let A3 := matMapIdx (fun i row =>
      if i = j then row
      else
        let xi := row.getD j nan
        rowMapIdx (fun k v => if j < k then jsub v (jmul (Arow.getD k nan) xi) else v) row) A2
    let I3 := matMapIdx (fun i row =>
      if i = j then row
      else
        let xi := (A2.getD i []).getD j nan
        rowMapIdx (fun k v => jsub v (jmul (Irow.getD k nan) xi)) row) I2
    some (A3, I3)

/-- numeric.inv: Gauss-Jordan elimination with partial pivoting over the
columns; `none` models the TypeError described at `invStep` (it is the
only exception the shim can raise, and the try/catch of
getNormalizationCoefficients catches it). -/
def jsInv (a : JMat) : Option JMat :=
  let m := a.length
  let n := (a.getD 0 []).length
  ((List.range n).foldlM (invStep m) (a, identityMat m)).map (fun st => st.2)

/-- Dot product of two vectors.  numeric.dotMMsmall and numeric.dotMV
accumulate the sum with a manually unrolled descending loop; addition in
this exact model is commutative and associative (NaN is absorbing, and
opposite infinities give NaN in every association), so a left fold from
zero computes the same value. -/
def jdot (xs ys : JVec) : JSNum :=
  (xs.zip ys).foldl (fun acc p => jadd acc (jmul p.1 p.2)) (ofInt 0)

/-- numeric.dotMMsmall: matrix product. -/
def dotMMsmall (x y : JMat) : JMat :=
  x.map (fun row =>
    (List.range ((y.getD 0 []).length)).map (fun k =>
      jdot row (y.map (fun r => r.getD k nan))))

/-- numeric.dotMV: matrix-vector product. -/
def dotMV (x : JMat) (y : JVec) : JVec := x.map (fun row => jdot row y)

/-- numeric.transpose. -/
def jTranspose (x : JMat) : JMat :=
  (List.range ((x.getD 0 []).length)).map (fun j => x.map (fun row => row.getD j nan))

/-- The coefficient rounding of perspective.ts:
round(num) = Math.round(num * 10000000000) / 10000000000. -/
def roundCoeff (num : JSNum) : JSNum :=
  jdiv (jround (jmul num (ofInt 10000000000))) (ofInt 10000000000)

/-- The identity coefficient list returned by the catch branch of
getNormalizationCoefficients: [1, 0, 0, 0, 1, 0, 0, 0, 1]. -/
def identityCoeffs : JVec :=
  [ofInt 1, ofInt 0, ofInt 0, ofInt 0, ofInt 1, ofInt 0, ofInt 0, ofInt 0, ofInt 1]

/-- getNormalizationCoefficients of perspective.ts: swap source and
destination for the inverse direction, build the 8x8 system (two rows per
point correspondence), solve the normal equations
(A^T A)^{-1} A^T b, round the eight coefficients and append the fixed
ninth coefficient 1.  The try/catch around the solve is modelled by the
`Option` result of jsInv: on the modelled TypeError the identity
coefficient list is returned (the source also logs the caught exception
with console.error). -/
def getNormalizationCoefficients (srcIn dstIn : JVec) (isInverse : Bool) : JVec :=
  let srcPts := if isInverse then dstIn else srcIn
  let dstPts := if isInverse then srcIn else dstIn
  let s := fun i => srcPts.getD i nan
  let d := fun i => dstPts.getD i nan
  let m1 := ofInt (-1)
  let r1 := [s 0, s 1, ofInt 1, ofInt 0, ofInt 0, ofInt 0,
             jmul (jmul m1 (d 0)) (s 0), jmul (jmul m1 (d 0)) (s 1)]
  let r2 := [ofInt 0, ofInt 0, ofInt 0, s 0, s 1, ofInt 1,
             jmul (jmul m1 (d 1)) (s 0), jmul (jmul m1 (d 1)) (s 1)]
  let r3 := [s 2, s 3, ofInt 1, ofInt 0, ofInt 0, ofInt 0,
             jmul (jmul m1 (d 2)) (s 2), jmul (jmul m1 (d 2)) (s 3)]
  let r4 := [ofInt 0, ofInt 0, ofInt 0, s 2, s 3, ofInt 1,
             jmul (jmul m1 (d 3)) (s 2), jmul (jmul m1 (d 3)) (s 3)]
  let r5 := [s 4, s 5, ofInt 1, ofInt 0, ofInt 0, ofInt 0,
             jmul (jmul m1 (d 4)) (s 4), jmul (jmul m1 (d 4)) (s 5)]
  let r6 := [ofInt 0, ofInt 0, ofInt 0, s 4, s 5, ofInt 1,
             jmul (jmul m1 (d 5)) (s 4), jmul (jmul m1 (d 5)) (s 5)]
  let r7 := [s 6, s 7, ofInt 1, ofInt 0, ofInt 0, ofInt 0,
             jmul (jmul m1 (d 6)) (s 6), jmul (jmul m1 (d 6)) (s 7)]
  let r8 := [ofInt 0, ofInt 0, ofInt 0, s 6, s 7, ofInt 1,
             jmul (jmul m1 (d 7)) (s 6), jmul (jmul m1 (d 7)) (s 7)]
  let matA := [r1, r2, r3, r4, r5, r6, r7, r8]
  let matB := dstPts
  match jsInv (dotMMsmall (jTranspose matA) matA) with
  | none => identityCoeffs
  | some matC =>
    let matD := dotMMsmall matC (jTranspose matA)
    let matX := dotMV matD matB
    (matX.map roundCoeff) ++ [ofInt 1]

/-- The PerspT class of perspective.ts. -/
structure PerspT where
  srcPts : JVec
  dstPts : JVec
  coeffs : JVec
  coeffsInv : JVec
deriving DecidableEq, Repr

/-- The PerspT constructor: solve both coefficient sets. -/
def PerspT.make (srcPts dstPts : JVec) : PerspT :=
  { srcPts := srcPts
    dstPts := dstPts
    coeffs := getNormalizationCoefficients srcPts dstPts false
    coeffsInv := getNormalizationCoefficients srcPts dstPts true }

/-- The shared shape of PerspT.transform and PerspT.transformInverse:
both coordinates divide an affine numerator by the perspective
denominator c6 * x + c7 * y + 1.  Neither division is guarded. -/
def perspApply (c : JVec) (x y : JSNum) : JSNum × JSNum :=
  let g := fun i => c.getD i nan
  let denom := jadd (jadd (jmul (g 6) x) (jmul (g 7) y)) (ofInt 1)
  (jdiv (jadd (jadd (jmul (g 0) x) (jmul (g 1) y)) (g 2)) denom,
   jdiv (jadd (jadd (jmul (g 3) x) (jmul (g 4) y)) (g 5)) denom)

/-- PerspT.transform. -/
def PerspT.transform (t : PerspT) (x y : JSNum) : JSNum × JSNum :=
  perspApply t.coeffs x y

/-- PerspT.transformInverse. -/
def PerspT.transformInverse (t : PerspT) (x y : JSNum) : JSNum × JSNum :=
  perspApply t.coeffsInv x y

/-! ## Geometry helpers (src geometry.ts) -/

/-- toTuples of geometry.ts: split a flat [x0, y0, x1, y1, ...] array into
coordinate pairs.  The source throws on an odd-length array; every call in
the repository passes a flat list of four corners (length 8). -/
def toTuples : JVec → List (JSNum × JSNum)
  | x :: y :: rest => (x, y) :: toTuples rest
  | _ => []

/-- Cross product z-component used to test on which side of the directed
line from a to b the point p lies. -/
def crossZ (a b p : JSNum × JSNum) : JSNum :=
  jsub (jmul (jsub b.1 a.1) (jsub p.2 a.2)) (jmul (jsub b.2 a.2) (jsub p.1 a.1))

/-- Membership of p in the (possibly degenerate) triangle a b c, boundary
included: all three side tests have the same sign.  False whenever a NaN
coordinate is involved, since NaN comparisons are false. -/
def pointInTriangle (p a b c : JSNum × JSNum) : Bool :=
  let z := ofInt 0
  let d1 := crossZ a b p
  let d2 := crossZ b c p
  let d3 := crossZ c a p
  (jle z d1 && jle z d2 && jle z d3) || (jle d1 z && jle d2 z && jle d3 z)

/-- Modelled from the spec: the convex-hull computation of isQuadConcave
lives in the external convex-hull npm package, outside this repository.
Per the spec, "Computes the convex hull of the 4 corner points; if the
hull contains fewer than 4 points, one corner lies inside the triangle
formed by the other three — the quad is degenerate."  The hull of four
points has fewer than four vertices exactly when some corner lies in the
(possibly degenerate) triangle of the other three, boundary included,
which is what this decidable predicate computes. -/
def isQuadConcave (corners : JVec) : Bool :=
  match toTuples corners with
  | [p0, p1, p2, p3] =>
    pointInTriangle p0 p1 p2 p3 || pointInTriangle p1 p0 p2 p3 ||
    pointInTriangle p2 p0 p1 p3 || pointInTriangle p3 p0 p1 p2
  | _ => false

/-! ## MeshWarper state (src ContentManager.ts) -/

/-- A THREE.Vector3 position. -/
structure Vec3 where
  x : JSNum
  y : JSNum
  z : JSNum
deriving DecidableEq, Repr

/-- Reading past the end of a JavaScript array yields undefined; arithmetic
on its fields behaves like NaN.  Used only as the default of out-of-range
reads, which no claim below exercises. -/
def undefinedVec : Vec3 := ⟨nan, nan, nan⟩

instance : Inhabited Vec3 := ⟨undefinedVec⟩

/-- The StoredControlPoints snapshot shape of localStorage persistence. -/
structure StoredControlPoints where
  corners : List Vec3
  grid : List Vec3
  referenceGrid : List Vec3
deriving DecidableEq, Repr

/-- The MeshWarper state the claims are about: the three authoritative
point sets, the per-corner-object lastValidPosition clones, the source
rectangle (quadData.initalCorners, flattened as 8 numbers in TL TR BL BR
order), the configured grid density, the plane dimensions of the config,
and the persisted snapshot slot. -/
structure MeshWarper where
  configWidth : JSNum
  configHeight : JSNum
  initalCorners : JVec
  dragCornerControlPoints : List Vec3
  lastValidPositions : List Vec3
  dragGridControlPoints : List Vec3
  referenceGridControlPoints : List Vec3
  xControlPointAmount : Nat
  yControlPointAmount : Nat
  storage : Option StoredControlPoints
deriving DecidableEq, Repr

/-- The flatMap((point) => [point.x, point.y]) of handleDrag and
setGridSize. -/
def flattenXY (ps : List Vec3) : JVec :=
  ps.foldr (fun p acc => p.x :: p.y :: acc) []

/-- A drag event targets either the i-th corner object or the i-th grid
object.  The source recovers the grid index with indexOf on the dragged
Vector3, which finds it by object identity; the index is carried
explicitly here. -/
inductive DragTarget where
  | corner (i : Nat)
  | grid (i : Nat)
deriving DecidableEq, Repr

/-- DragControls moves the dragged object to the pointer position before
the drag event handler runs; the corner and grid arrays alias the object
positions, so the targeted entry is already at the new position when
handleDrag reads it. -/
def moveDraggedObject (s : MeshWarper) (target : DragTarget) (p : Vec3) : MeshWarper :=
  match target with
  | .corner i => { s with dragCornerControlPoints := s.dragCornerControlPoints.set i p }
  | .grid i => { s with dragGridControlPoints := s.dragGridControlPoints.set i p }

/-- The corner-drag loop of perspectiveTransformControlPoints: for every
index i below referenceGridControlPoints.length, write
(transform(ref.x, ref.y), ref.z) into dragGridControlPoints[i].  The
recursion walks the two lists in step; a reference list longer than the
grid list would make the source throw on an undefined element (the two
lists are always created pairwise, so this never happens). -/
def warpGridFromReferences (t : PerspT) : List Vec3 → List Vec3 → List Vec3
  | [], grid => grid
  | _, [] => []
  | r :: rs, _ :: gs =>
    let w := t.transform r.x r.y
    ⟨w.1, w.2, r.z⟩ :: warpGridFromReferences t rs gs

/-- perspectiveTransformControlPoints: build the homography from the
source rectangle to the given flattened corners; on a grid drag, write
the inverse transform of the dragged position into that point's
reference entry (z untouched); on a corner drag, recompute every grid
point from its reference point through the forward transform. -/
def perspectiveTransformControlPoints (s : MeshWarper) (controlCorners : JVec)
    (target : DragTarget) (draggedPoint : Vec3) : MeshWarper :=
  let perspectiveTransformer := PerspT.make s.initalCorners controlCorners
  match target with
  | .grid i =>
    let inv := perspectiveTransformer.transformInverse draggedPoint.x draggedPoint.y
    let old := s.referenceGridControlPoints.getD i undefinedVec
    { s with referenceGridControlPoints :=
        s.referenceGridControlPoints.set i ⟨inv.1, inv.2, old.z⟩ }
  | .corner _ =>
    { s with dragGridControlPoints :=
        (warpGridFromReferences perspectiveTransformer
          s.referenceGridControlPoints s.dragGridControlPoints) }

/-- handleDrag: flatten the current corners (the dragged point has already
been moved), reject a concave configuration by snapping a dragged corner
back to its lastValidPosition (a dragged grid point is left where it was
moved), otherwise refresh the dragged corner's lastValidPosition and run
the perspective propagation.  The handler afterwards refreshes the
outline line and the averaged plane-size uniform, which are display
state outside the modelled record. -/
def handleDrag (s : MeshWarper) (target : DragTarget) (p : Vec3) : MeshWarper :=
  let s1 := moveDraggedObject s target p
  let dragControlCorners := flattenXY s1.dragCornerControlPoints
  if isQuadConcave dragControlCorners then
    match target with
    | .corner i =>
      { s1 with dragCornerControlPoints :=
          s1.dragCornerControlPoints.set i (s1.lastValidPositions.getD i undefinedVec) }
    | .grid _ => s1
  else
    let s2 := match target with
      | .corner i =>
        { s1 with lastValidPositions :=
            s1.lastValidPositions.set i (s1.dragCornerControlPoints.getD i undefinedVec) }
      | .grid _ => s1
    perspectiveTransformControlPoints s2 dragControlCorners target p

/-- The forEach(pos, i) loops of loadFromStorage: overwrite dst[i] with
src[i] for every index present in src.  A src array longer than dst
makes the source throw on the first missing index, after all existing
entries were already overwritten; a shorter src just overwrites a
prefix.  In both cases the resulting list is this overwrite. -/
def overwritePositions : List Vec3 → List Vec3 → List Vec3
  | dst, [] => dst
  | [], _ => []
  | _ :: ds, p :: ps => p :: overwritePositions ds ps

/-- loadFromStorage: no stored snapshot leaves the state untouched; a
snapshot whose corners or grid length does not match the current
configuration is ignored with a warning; otherwise the stored corner
positions are applied (also refreshing each corner's lastValidPosition
clone) together with the stored grid positions and the stored reference
grid entries.  The referenceGrid length is not validated: an over-long
stored referenceGrid throws inside its forEach and the surrounding catch
swallows the exception after every existing entry was already
overwritten, and an under-long one silently overwrites a prefix; the
skipped updateLine / averageDimensions refresh is display state outside
the modelled record. -/
def loadFromStorage (s : MeshWarper) : MeshWarper :=
  match s.storage with
  | none => s
  | some data =>
    if data.corners.length ≠ s.dragCornerControlPoints.length ∨
       data.grid.length ≠ s.dragGridControlPoints.length then s
    else
      { s with
        dragCornerControlPoints := overwritePositions s.dragCornerControlPoints data.corners
        lastValidPositions := overwritePositions s.lastValidPositions data.corners
        dragGridControlPoints := overwritePositions s.dragGridControlPoints data.grid
        referenceGridControlPoints :=
          overwritePositions s.referenceGridControlPoints data.referenceGrid }

/-- Modelled from the spec: "an evenly-subdivided plane geometry provides
the initial world positions".  The vertex layout of the external
three.js PlaneGeometry(width, height, xAmount - 1, yAmount - 1): rows
run from the top edge (y = height/2) downward, columns from the left
edge (x = -width/2) rightward, with xAmount points per row. -/
def planeGridPositions (width height : JSNum) (xAmount yAmount : Nat) : List Vec3 :=
  (List.range yAmount).flatMap (fun iy =>
    (List.range xAmount).map (fun ix =>
      { x := jsub (jmul (ofInt ix) (jdiv width (ofInt (Int.ofNat (xAmount - 1)))))
               (jdiv width (ofInt 2))
        y := jsub (jdiv height (ofInt 2))
               (jmul (ofInt iy) (jdiv height (ofInt (Int.ofNat (yAmount - 1)))))
        z := ofInt 0 }))

/-- reoderGridPointsToBottomLeftOrigin: rows are emitted from the last
(bottom) row upward, columns left to right. -/
def reoderGridPointsToBottomLeftOrigin (points : List Vec3) (gridSizeX gridSizeY : Nat) : List Vec3 :=
  ((List.range gridSizeY).reverse).flatMap (fun row =>
    (List.range gridSizeX).map (fun col =>
      points.getD (row * gridSizeX + col) undefinedVec))

/-- setGridSize: clamp the requested densities to [2,10] (the source
floors its number arguments first; integer inputs are modelled), no-op
when unchanged, otherwise rebuild the grid and reference sets from a
fresh evenly-subdivided control plane (each grid object position is
pushed together with a clone as its reference point, then both lists are
reordered identically to bottom-left origin), re-derive every new grid
point by transforming its reference position through the homography of
the current (cloned, unchanged) corner positions, and delete the
persisted snapshot (localStorage.removeItem). -/
def setGridSize (s : MeshWarper) (xIn yIn : Int) : MeshWarper :=
  let x : Nat := (max 2 (min 10 xIn)).toNat
  let y : Nat := (max 2 (min 10 yIn)).toNat
  if x = s.xControlPointAmount ∧ y = s.yControlPointAmount then s
  else
    let cornerPositions := s.dragCornerControlPoints
    let raw := planeGridPositions s.configWidth s.configHeight x y
    let newGrid := reoderGridPointsToBottomLeftOrigin raw x y
    let newRef := reoderGridPointsToBottomLeftOrigin raw x y
    let dragControlCorners := flattenXY cornerPositions
    let perspectiveTransformer := PerspT.make s.initalCorners dragControlCorners
    { s with
      xControlPointAmount := x
      yControlPointAmount := y
      dragGridControlPoints := (warpGridFromReferences perspectiveTransformer newRef newGrid)
      referenceGridControlPoints := newRef
      storage := none }

/-! ## Warp vertex shader control-point addressing (src shaders/warp.vert) -/

/-- The shader uniforms the control-point addressing reads: the flat
bottom-left-origin control point array (vec3; the .xy swizzle of getPoint
drops z, so pairs are stored) and the grid dimensions.  GLSL ints are
modelled as Int since the indices go to -1. -/
structure WarpGrid where
  uControlPoints : List (JSNum × JSNum)
  uGridSizeX : Int
  uGridSizeY : Int
deriving DecidableEq, Repr

/-- Componentwise scalar multiplication of a vec2. -/
def v2scale (c : JSNum) (p : JSNum × JSNum) : JSNum × JSNum := (jmul c p.1, jmul c p.2)

/-- Componentwise subtraction of vec2 values. -/
def v2sub (p r : JSNum × JSNum) : JSNum × JSNum := (jsub p.1 r.1, jsub p.2 r.2)

/-- getPoint: read uControlPoints[y * uGridSizeX + x].xy.  The clamp lines
of the source are commented out; every call site passes in-range
indices. -/
def getPoint (g : WarpGrid) (x y : Int) : JSNum × JSNum :=
  let linearIndex := y * g.uGridSizeX + x
  g.uControlPoints.getD linearIndex.toNat (nan, nan)

/-- getPointResolvedY: mirror a row index one step below row 0 or above
row maxY from the two nearest rows, otherwise read the grid directly. -/
def getPointResolvedY (g : WarpGrid) (x y : Int) : JSNum × JSNum :=
  let maxY := g.uGridSizeY - 1
  if y < 0 then
    v2sub (v2scale (ofInt 2) (getPoint g x 0)) (getPoint g x 1)
  else if y > maxY then
    v2sub (v2scale (ofInt 2) (getPoint g x maxY)) (getPoint g x (maxY - 1))
  else getPoint g x y

/-- getControlPoint: mirror an out-of-range column index from the two
nearest columns, resolving the row index independently first. -/
def getControlPoint (g : WarpGrid) (xIndex yIndex : Int) : JSNum × JSNum :=
  let maxX := g.uGridSizeX - 1
  if xIndex < 0 then
    v2sub (v2scale (ofInt 2) (getPointResolvedY g 0 yIndex)) (getPointResolvedY g 1 yIndex)
  else if xIndex > maxX then
    v2sub (v2scale (ofInt 2) (getPointResolvedY g maxX yIndex)) (getPointResolvedY g (maxX - 1) yIndex)
  else getPointResolvedY g xIndex yIndex

/-! ## Concrete instances used by witnesses and counterexamples -/

/-- The 100 by 100 source square of the repository test suite, flattened
TL TR BL BR. -/
def squareSrcQuad : JVec :=
  [ofInt 0, ofInt 100, ofInt 100, ofInt 100, ofInt 0, ofInt 0, ofInt 100, ofInt 0]

/-- The skewed destination quad of the repository round-trip test. -/
def skewDstQuad : JVec :=
  [ofInt 20, ofInt 120, ofInt 100, ofInt 100, ofInt 0, ofInt 0, ofInt 120, ofInt (-20)]

/-- The transformer the repository round-trip test constructs. -/
def skewTransformer : PerspT := PerspT.make squareSrcQuad skewDstQuad

/-- Agreement to at least four decimal digits: both values finite and at
distance at most 1/10000. -/
def approxEq4 (a b : JSNum) : Bool :=
  a.isFinite && b.isFinite && jle (jabs (jsub a b)) (fin 1 10000)

/-- A finite point on the singular line c6 x + c7 y + 1 = 0 of the skew
transformer: its rounded forward coefficients have
c6 = 2173913/2500000000 and the point takes y = 0, x = -1/c6. -/
def skewSingularPoint : JSNum × JSNum := (fin (-2500000000) 2173913, ofInt 0)

/-- A fully degenerate source quad: all four corners on the line y = x. -/
def collinearSrcQuad : JVec :=
  [ofInt 0, ofInt 0, ofInt 1, ofInt 1, ofInt 2, ofInt 2, ofInt 3, ofInt 3]

/-- A degenerate source quad with exactly three collinear corners (the
rank deficiency of the normal equations then surfaces only at the last
pivot column). -/
def threeCollinearSrcQuad : JVec :=
  [ofInt 0, ofInt 0, ofInt 1, ofInt 0, ofInt 2, ofInt 0, ofInt 0, ofInt 1]

/-- The unit destination square, flattened TL TR BL BR. -/
def unitDstQuad : JVec :=
  [ofInt 0, ofInt 0, ofInt 1, ofInt 0, ofInt 0, ofInt 1, ofInt 1, ofInt 1]

/-- Corner set of a small sample warper: a 2 by 2 plane with corners at
(-1,1) (1,1) (-1,-1) (1,-1), TL TR BL BR. -/
def sampleCorners : List Vec3 :=
  [⟨ofInt (-1), ofInt 1, ofInt 0⟩, ⟨ofInt 1, ofInt 1, ofInt 0⟩,
   ⟨ofInt (-1), ofInt (-1), ofInt 0⟩, ⟨ofInt 1, ofInt (-1), ofInt 0⟩]

/-- Grid set of the sample warper: 2 by 2 points in bottom-left-origin
order. -/
def sampleGrid : List Vec3 :=
  [⟨ofInt (-1), ofInt (-1), ofInt 0⟩, ⟨ofInt 1, ofInt (-1), ofInt 0⟩,
   ⟨ofInt (-1), ofInt 1, ofInt 0⟩, ⟨ofInt 1, ofInt 1, ofInt 0⟩]

/-- A sample warper in its default (unwarped) layout. -/
def sampleWarper : MeshWarper :=
  { configWidth := ofInt 2
    configHeight := ofInt 2
    initalCorners := flattenXY sampleCorners
    dragCornerControlPoints := sampleCorners
    lastValidPositions := sampleCorners
    dragGridControlPoints := sampleGrid
    referenceGridControlPoints := sampleGrid
    xControlPointAmount := 2
    yControlPointAmount := 2
    storage := none }

/-- A drag destination inside the triangle of the other three corners:
dragging corner 0 here makes the quad concave. -/
def concaveDragPoint : Vec3 := ⟨fin 1 2, ofInt 0, ofInt 0⟩

/-- A drag destination that keeps the quad convex. -/
def convexDragPoint : Vec3 := ⟨ofInt (-2), ofInt 2, ofInt 0⟩

/-- A snapshot whose grid length (5) does not match the sample warper's
grid (4). -/
def mismatchedSnapshot : StoredControlPoints :=
  { corners := sampleCorners
    grid := sampleGrid ++ [⟨ofInt 0, ofInt 0, ofInt 0⟩]
    referenceGrid := sampleGrid }

/-- The sample warper with the mismatched snapshot in storage. -/
def warperWithMismatchedSnapshot : MeshWarper :=
  { sampleWarper with storage := some mismatchedSnapshot }

/-- Stored corner positions distinct from the sample layout. -/
def storedCornersAlt : List Vec3 :=
  [⟨ofInt (-2), ofInt 2, ofInt 0⟩, ⟨ofInt 2, ofInt 2, ofInt 0⟩,
   ⟨ofInt (-2), ofInt (-2), ofInt 0⟩, ⟨ofInt 2, ofInt (-2), ofInt 0⟩]

/-- Stored grid positions distinct from the sample layout. -/
def storedGridAlt : List Vec3 :=
  [⟨ofInt (-2), ofInt (-2), ofInt 0⟩, ⟨ofInt 2, ofInt (-2), ofInt 0⟩,
   ⟨ofInt (-2), ofInt 2, ofInt 0⟩, ⟨ofInt 2, ofInt 2, ofInt 0⟩]

/-- A snapshot whose corners and grid lengths match the sample warper but
whose referenceGrid has six entries instead of four. -/
def overlongSnapshot : StoredControlPoints :=
  { corners := storedCornersAlt
    grid := storedGridAlt
    referenceGrid :=
      [⟨ofInt (-9), ofInt 0, ofInt 0⟩, ⟨ofInt (-8), ofInt 0, ofInt 0⟩,
       ⟨ofInt (-7), ofInt 0, ofInt 0⟩, ⟨ofInt (-6), ofInt 0, ofInt 0⟩,
       ⟨ofInt (-5), ofInt 0, ofInt 0⟩, ⟨ofInt (-4), ofInt 0, ofInt 0⟩] }

/-- A snapshot whose corners and grid lengths match the sample warper but
whose referenceGrid has only two entries. -/
def shortSnapshot : StoredControlPoints :=
  { corners := storedCornersAlt
    grid := storedGridAlt
    referenceGrid := [⟨ofInt (-9), ofInt 0, ofInt 0⟩, ⟨ofInt (-8), ofInt 0, ofInt 0⟩] }

/-- The sample warper with the over-long snapshot in storage. -/
def warperWithOverlongSnapshot : MeshWarper :=
  { sampleWarper with storage := some overlongSnapshot }

/-- The sample warper with the short snapshot in storage. -/
def warperWithShortSnapshot : MeshWarper :=
  { sampleWarper with storage := some shortSnapshot }

/-- A 2 by 2 shader control grid. -/
def sampleWarpGrid : WarpGrid :=
  { uControlPoints :=
      [(ofInt 0, ofInt 0), (ofInt 3, ofInt 0), (ofInt 0, ofInt 2), (ofInt 3, ofInt 2)]
    uGridSizeX := 2
    uGridSizeY := 2 }

/-- An identity-like coefficient list with a nonzero perspective
coefficient c6 = 1. -/
def samplePerspCoeffs : JVec :=
  [ofInt 1, ofInt 0, ofInt 0, ofInt 0, ofInt 1, ofInt 0, ofInt 1, ofInt 0, ofInt 1]

/-- A transformer record carrying samplePerspCoeffs in both directions. -/
def samplePerspT : PerspT :=
  { srcPts := [], dstPts := [], coeffs := samplePerspCoeffs, coeffsInv := samplePerspCoeffs }

/-! ## Helper lemmas -/

theorem set_getD_self {α : Type} : ∀ (l : List α) (i : Nat) (d : α), i < l.length →
    l.set i (l.getD i d) = l
  | _ :: _, 0, _, _ => rfl
  | a :: as, i + 1, d, h => by
    simp only [List.set, List.getD, List.get?, List.cons.injEq, true_and]
    exact set_getD_self as i d (by simpa using h)

theorem getD_set_ne {α : Type} : ∀ (l : List α) (i j : Nat) (a d : α), j ≠ i →
    (l.set i a).getD j d = l.getD j d
  | [], _, _, _, _, _ => rfl
  | _ :: _, 0, 0, _, _, h => absurd rfl h
  | _ :: _, 0, _ + 1, _, _, _ => rfl
  | _ :: _, _ + 1, 0, _, _, _ => rfl
  | _ :: as, i + 1, j + 1, a, d, h => by
    simp only [List.set, List.getD, List.get?]
    exact getD_set_ne as i j a d (fun hji => h (by omega))

theorem warpGrid_length (t : PerspT) : ∀ (ref grid : List Vec3),
    (warpGridFromReferences t ref grid).length = grid.length
  | [], _ => by simp [warpGridFromReferences]
  | _ :: _, [] => by simp [warpGridFromReferences]
  | _ :: rs, _ :: gs => by
    simp only [warpGridFromReferences, List.length_cons]
    exact congrArg (· + 1) (warpGrid_length t rs gs)

theorem warpGrid_getD (t : PerspT) : ∀ (ref grid : List Vec3) (j : Nat),
    j < ref.length → j < grid.length →
    (warpGridFromReferences t ref grid).getD j undefinedVec =
      { x := (t.transform (ref.getD j undefinedVec).x (ref.getD j undefinedVec).y).1
        y := (t.transform (ref.getD j undefinedVec).x (ref.getD j undefinedVec).y).2
        z := (ref.getD j undefinedVec).z }
  | r :: rs, g :: gs, 0, _, _ => by simp [warpGridFromReferences, List.getD]
  | r :: rs, g :: gs, j + 1, hr, hg => by
    simp only [warpGridFromReferences, List.getD, List.get?]
    exact warpGrid_getD t rs gs j (by simpa using hr) (by simpa using hg)

/-! ## Claim theorems -/

/-- C1: a drag-move of corner i whose resulting corner configuration is
concave (isQuadConcave returns true) reverts the dragged corner to its
last known-valid position and recomputes nothing: provided the last
valid position of the dragged corner records its pre-drag position (the
invariant every constructor, load and valid drag maintains), the whole
warper state — flattened corner coordinates, grid set and reference set
— equals its value from before the drag attempt. -/
theorem concaveCornerDragSnapsBack (s : MeshWarper) (i : Nat) (p : Vec3)
    (hi : i < s.dragCornerControlPoints.length)
    (hlast : s.lastValidPositions.getD i undefinedVec = s.dragCornerControlPoints.getD i undefinedVec)
    (hconc : isQuadConcave (flattenXY (s.dragCornerControlPoints.set i p)) = true) :
    handleDrag s (DragTarget.corner i) p = s := by
  simp only [handleDrag, moveDraggedObject, hconc, if_true]
  rw [List.set_set, hlast, set_getD_self _ _ _ hi]

/-- C2: after a valid (non-concave) drag of corner i, every grid point
simultaneously equals the forward transform — under the homography built
from the source rectangle to the new corner set — of its paired
reference point (with the reference z carried through), and no grid
point is stale; the reference set is untouched and the corner set holds
the dragged position. -/
theorem validCornerDragPropagatesAllGridPoints (s : MeshWarper) (i : Nat) (p : Vec3)
    (hlen : s.referenceGridControlPoints.length = s.dragGridControlPoints.length)
    (hconv : isQuadConcave (flattenXY (s.dragCornerControlPoints.set i p)) = false) :
    (handleDrag s (DragTarget.corner i) p).dragCornerControlPoints =
      s.dragCornerControlPoints.set i p ∧
    (handleDrag s (DragTarget.corner i) p).referenceGridControlPoints =
      s.referenceGridControlPoints ∧
    (handleDrag s (DragTarget.corner i) p).dragGridControlPoints.length =
      s.dragGridControlPoints.length ∧
    ∀ j, j < (handleDrag s (DragTarget.corner i) p).dragGridControlPoints.length →
      (handleDrag s (DragTarget.corner i) p).dragGridControlPoints.getD j undefinedVec =
        { x := ((PerspT.make s.initalCorners (flattenXY (s.dragCornerControlPoints.set i p))).transform
                  (s.referenceGridControlPoints.getD j undefinedVec).x
                  (s.referenceGridControlPoints.getD j undefinedVec).y).1
          y := ((PerspT.make s.initalCorners (flattenXY (s.dragCornerControlPoints.set i p))).transform
                  (s.referenceGridControlPoints.getD j undefinedVec).x
                  (s.referenceGridControlPoints.getD j undefinedVec).y).2
          z := (s.referenceGridControlPoints.getD j undefinedVec).z } := by
  simp only [handleDrag, moveDraggedObject, perspectiveTransformControlPoints, hconv,
    Bool.false_eq_true, if_false]
  refine ⟨trivial, trivial, warpGrid_length _ _ _, ?_⟩
  intro j hj
  rw [warpGrid_length] at hj
  exact warpGrid_getD _ _ _ j (by omega) hj

/-- C3: a valid drag of grid point i builds the homography from the
source rectangle to the current (unchanged) corner set, stores the
inverse transform of the dragged position (z untouched) as that point's
reference, and changes nothing else: corners and last valid positions
are untouched, the dragged grid point stays where the drag controls
moved it, and every other grid point and reference point is
unchanged. -/
theorem validGridDragUpdatesOnlyItsReference (s : MeshWarper) (i : Nat) (p : Vec3)
    (hconv : isQuadConcave (flattenXY s.dragCornerControlPoints) = false) :
    (handleDrag s (DragTarget.grid i) p).dragCornerControlPoints =
      s.dragCornerControlPoints ∧
    (handleDrag s (DragTarget.grid i) p).lastValidPositions = s.lastValidPositions ∧
    (handleDrag s (DragTarget.grid i) p).dragGridControlPoints =
      s.dragGridControlPoints.set i p ∧
    (handleDrag s (DragTarget.grid i) p).referenceGridControlPoints =
      s.referenceGridControlPoints.set i
        { x := ((PerspT.make s.initalCorners (flattenXY s.dragCornerControlPoints)).transformInverse
                  p.x p.y).1
          y := ((PerspT.make s.initalCorners (flattenXY s.dragCornerControlPoints)).transformInverse
                  p.x p.y).2
          z := (s.referenceGridControlPoints.getD i undefinedVec).z } ∧
    (∀ j, j ≠ i → (handleDrag s (DragTarget.grid i) p).dragGridControlPoints.getD j undefinedVec =
      s.dragGridControlPoints.getD j undefinedVec) ∧
    (∀ j, j ≠ i → (handleDrag s (DragTarget.grid i) p).referenceGridControlPoints.getD j undefinedVec =
      s.referenceGridControlPoints.getD j undefinedVec) := by
  simp only [handleDrag, moveDraggedObject, perspectiveTransformControlPoints, hconv,
    Bool.false_eq_true, if_false]
  refine ⟨trivial, trivial, trivial, trivial, ?_, ?_⟩
  · intro j hj; exact getD_set_ne _ _ _ _ _ hj
  · intro j hj; exact getD_set_ne _ _ _ _ _ hj

/-- C5: a resize to a changed clamped density keeps the corner set
untouched, clamps both densities into [2,10], deletes the persisted
snapshot, and gives every newly created grid point the forward transform
of its reference position under the homography implied by the corner
positions held just before the resize. -/
theorem gridResizePreservesWarp (s : MeshWarper) (xIn yIn : Int)
    (hchange : ¬((max 2 (min 10 xIn)).toNat = s.xControlPointAmount ∧
                 (max 2 (min 10 yIn)).toNat = s.yControlPointAmount)) :
    (setGridSize s xIn yIn).dragCornerControlPoints = s.dragCornerControlPoints ∧
    (setGridSize s xIn yIn).storage = none ∧
    2 ≤ (setGridSize s xIn yIn).xControlPointAmount ∧
    (setGridSize s xIn yIn).xControlPointAmount ≤ 10 ∧
    2 ≤ (setGridSize s xIn yIn).yControlPointAmount ∧
    (setGridSize s xIn yIn).yControlPointAmount ≤ 10 ∧
    (setGridSize s xIn yIn).dragGridControlPoints.length =
      (setGridSize s xIn yIn).referenceGridControlPoints.length ∧
    ∀ j, j < (setGridSize s xIn yIn).referenceGridControlPoints.length →
      (setGridSize s xIn yIn).dragGridControlPoints.getD j undefinedVec =
        { x := ((PerspT.make s.initalCorners (flattenXY s.dragCornerControlPoints)).transform
                  ((setGridSize s xIn yIn).referenceGridControlPoints.getD j undefinedVec).x
                  ((setGridSize s xIn yIn).referenceGridControlPoints.getD j undefinedVec).y).1
          y := ((PerspT.make s.initalCorners (flattenXY s.dragCornerControlPoints)).transform
                  ((setGridSize s xIn yIn).referenceGridControlPoints.getD j undefinedVec).x
                  ((setGridSize s xIn yIn).referenceGridControlPoints.getD j undefinedVec).y).2
          z := ((setGridSize s xIn yIn).referenceGridControlPoints.getD j undefinedVec).z } := by
  simp only [setGridSize, hchange, if_false]
  refine ⟨trivial, trivial, by omega, by omega, by omega, by omega, warpGrid_length _ _ _, ?_⟩
  intro j hj
  exact warpGrid_getD _ _ _ j hj hj

/-- C6: a persisted snapshot whose corners length or grid length does not
match the current configuration is rejected entirely: loadFromStorage
returns the state untouched. -/
theorem mismatchedSnapshotRejected (s : MeshWarper) (data : StoredControlPoints)
    (hstore : s.storage = some data)
    (hmis : data.corners.length ≠ s.dragCornerControlPoints.length ∨
            data.grid.length ≠ s.dragGridControlPoints.length) :
    loadFromStorage s = s := by
  simp only [loadFromStorage, hstore, hmis, if_true]

set_option maxRecDepth 10000 in
/-- C4 counterexample: for the singular system built from a source quad
with three collinear corners (a degenerate input whose rank deficiency
surfaces only at the last pivot column) the solver does not fall back to
the identity coefficients: the Gauss-Jordan completes without the
modelled exception, every solved coefficient is NaN, and nothing is
logged (the console.error sits in the never-reached catch branch). -/
theorem singularSolveWithoutIdentityFallback :
    getNormalizationCoefficients threeCollinearSrcQuad unitDstQuad false ≠ identityCoeffs ∧
    ((getNormalizationCoefficients threeCollinearSrcQuad unitDstQuad false).getD 0 nan).isNan =
      true := by
  decide

set_option maxRecDepth 10000 in
/-- C4 amended: the embedded solver is total, so no exception ever
reaches the caller, but the identity fallback covers only the singular
inputs on which the internal Gauss-Jordan actually throws (modelled by
the `none` of jsInv): for a fully collinear source quad the fallback
fires and the identity coefficients are returned, while for a source
quad with exactly three collinear corners the solve completes silently
with all eight solved coefficients NaN (and the fixed ninth coefficient
1), not the identity. -/
theorem singularSolveFallbackOnlyOnThrow :
    getNormalizationCoefficients collinearSrcQuad unitDstQuad false = identityCoeffs ∧
    (getNormalizationCoefficients threeCollinearSrcQuad unitDstQuad false).take 8 =
      List.replicate 8 nan ∧
    (getNormalizationCoefficients threeCollinearSrcQuad unitDstQuad false).getD 8 nan =
      ofInt 1 := by
  decide

set_option maxRecDepth 10000 in
/-- C7 counterexample: the source and destination quads of the
repository round-trip test form a valid, non-degenerate pair, yet at the
finite point skewSingularPoint — which lies on the singular line
c6 x + c7 y + 1 = 0 of the forward coefficients, shown here by the
perspective denominator evaluating to exactly zero — the forward-then-
inverse composition does not return the point to four decimal digits in
either coordinate (the unguarded divisions make both coordinates
non-finite). -/
theorem roundTripFailsOnSingularLine :
    isQuadConcave squareSrcQuad = false ∧
    isQuadConcave skewDstQuad = false ∧
    skewSingularPoint.1.isFinite = true ∧
    skewSingularPoint.2.isFinite = true ∧
    jadd (jadd (jmul (skewTransformer.coeffs.getD 6 nan) skewSingularPoint.1)
               (jmul (skewTransformer.coeffs.getD 7 nan) skewSingularPoint.2)) (ofInt 1) =
      fin 0 1 ∧
    (approxEq4
        (skewTransformer.transformInverse
          (skewTransformer.transform skewSingularPoint.1 skewSingularPoint.2).1
          (skewTransformer.transform skewSingularPoint.1 skewSingularPoint.2).2).1
        skewSingularPoint.1 ||
     approxEq4
        (skewTransformer.transformInverse
          (skewTransformer.transform skewSingularPoint.1 skewSingularPoint.2).1
          (skewTransformer.transform skewSingularPoint.1 skewSingularPoint.2).2).2
        skewSingularPoint.2) = false := by
  decide

set_option maxRecDepth 10000 in
/-- C7 amended: away from the singular line of the perspective division
the round trip does hold to four decimal digits; established at the
repository round-trip test input, p = (25, 75) under the skew quad pair,
by exact-rational evaluation of the solver including its coefficient
rounding. -/
theorem roundTripHoldsAtRepositoryTestInput :
    approxEq4
      (skewTransformer.transformInverse
        (skewTransformer.transform (ofInt 25) (ofInt 75)).1
        (skewTransformer.transform (ofInt 25) (ofInt 75)).2).1
      (ofInt 25) = true ∧
    approxEq4
      (skewTransformer.transformInverse
        (skewTransformer.transform (ofInt 25) (ofInt 75)).1
        (skewTransformer.transform (ofInt 25) (ofInt 75)).2).2
      (ofInt 75) = true := by
  decide

/-- C9: the loader validates only the corners and grid lengths.  With the
over-long snapshot (six stored reference entries against four held) the
load is applied, corner and grid positions are overwritten, and the
reference overwrite aborts mid-way through the caught exception after
filling the four existing slots with the first four stored entries; with
the short snapshot only the two indices present are applied.  In both
cases the warper ends up partially modified rather than untouched. -/
theorem referenceGridLengthUnvalidated :
    (loadFromStorage warperWithOverlongSnapshot).dragCornerControlPoints =
      overlongSnapshot.corners ∧
    (loadFromStorage warperWithOverlongSnapshot).dragGridControlPoints =
      overlongSnapshot.grid ∧
    (loadFromStorage warperWithOverlongSnapshot).referenceGridControlPoints =
      overlongSnapshot.referenceGrid.take 4 ∧
    loadFromStorage warperWithOverlongSnapshot ≠ warperWithOverlongSnapshot ∧
    (loadFromStorage warperWithShortSnapshot).dragCornerControlPoints =
      shortSnapshot.corners ∧
    (loadFromStorage warperWithShortSnapshot).dragGridControlPoints =
      shortSnapshot.grid ∧
    (loadFromStorage warperWithShortSnapshot).referenceGridControlPoints =
      shortSnapshot.referenceGrid ++ sampleGrid.drop 2 ∧
    loadFromStorage warperWithShortSnapshot ≠ warperWithShortSnapshot := by
  decide

/-- Rows inside the grid are read directly. -/
theorem getPointResolvedY_inRange (g : WarpGrid) (x y : Int)
    (h0 : 0 ≤ y) (h1 : y ≤ g.uGridSizeY - 1) :
    getPointResolvedY g x y = getPoint g x y := by
  simp only [getPointResolvedY]
  rw [if_neg (by omega), if_neg (by omega)]

/-- C8: a control point requested one step outside the grid on one axis
is synthesized by mirror extrapolation from the two nearest interior
points on that axis, the other coordinate being any in-range index: the
virtual point before column 0 is 2 * p[0][y] - p[1][y], the one past
column maxX is 2 * p[maxX][y] - p[maxX-1][y], and likewise for rows
below 0 and above maxY, each axis resolved independently. -/
theorem mirrorExtrapolationAtGridEdges (g : WarpGrid) (x y : Int)
    (hX : 2 ≤ g.uGridSizeX) (hY : 2 ≤ g.uGridSizeY)
    (hx0 : 0 ≤ x) (hx1 : x ≤ g.uGridSizeX - 1)
    (hy0 : 0 ≤ y) (hy1 : y ≤ g.uGridSizeY - 1) :
    getControlPoint g (-1) y =
      v2sub (v2scale (ofInt 2) (getPoint g 0 y)) (getPoint g 1 y) ∧
    getControlPoint g g.uGridSizeX y =
      v2sub (v2scale (ofInt 2) (getPoint g (g.uGridSizeX - 1) y))
        (getPoint g (g.uGridSizeX - 2) y) ∧
    getControlPoint g x (-1) =
      v2sub (v2scale (ofInt 2) (getPoint g x 0)) (getPoint g x 1) ∧
    getControlPoint g x g.uGridSizeY =
      v2sub (v2scale (ofInt 2) (getPoint g x (g.uGridSizeY - 1)))
        (getPoint g x (g.uGridSizeY - 2)) := by
  refine ⟨?_, ?_, ?_, ?_⟩
  · simp only [getControlPoint]
    rw [if_pos (by omega)]
    rw [getPointResolvedY_inRange g 0 y hy0 hy1, getPointResolvedY_inRange g 1 y hy0 hy1]
  · simp only [getControlPoint]
    rw [if_neg (by omega), if_pos (by omega)]
    rw [getPointResolvedY_inRange g _ y hy0 hy1, getPointResolvedY_inRange g _ y hy0 hy1]
    have h2 : g.uGridSizeX - 1 - 1 = g.uGridSizeX - 2 := by ring
    rw [h2]
  · simp only [getControlPoint]
    rw [if_neg (by omega), if_neg (by omega)]
    simp only [getPointResolvedY]
    rw [if_pos (by omega)]
  · simp only [getControlPoint]
    rw [if_neg (by omega), if_neg (by omega)]
    simp only [getPointResolvedY]
    rw [if_neg (by omega), if_pos (by omega)]
    have h2 : g.uGridSizeY - 1 - 1 = g.uGridSizeY - 2 := by ring
    rw [h2]

/-- mkFin of a zero numerator with positive denominator is the canonical
zero. -/
theorem mkFin_zero_pos (d : Int) (hd : 0 < d) : mkFin 0 d = fin 0 1 := by
  simp only [mkFin, Int.gcd, Int.natAbs_zero, Nat.gcd_zero_left]
  rw [if_neg (by omega)]
  rw [Int.natAbs_of_nonneg (by omega)]
  rw [Int.zero_ediv, Int.ediv_self (by omega)]

/-- mkFin of minus-e over e is the canonical minus one. -/
theorem mkFin_neg_self (e : Int) (he : e ≠ 0) : mkFin (-e) e = fin (-1) 1 := by
  simp only [mkFin, Int.gcd, Int.natAbs_neg, Nat.gcd_self]
  rcases lt_or_gt_of_ne he with hlt | hgt
  · rw [if_pos hlt, neg_neg]
    have habs : (e.natAbs : Int) = -e := by
      rw [Int.ofNat_natAbs_of_nonpos (by omega)]
    rw [habs]
    rw [Int.ediv_neg, Int.ediv_self he, Int.neg_ediv_of_dvd ⟨-1, by ring⟩, Int.ediv_neg,
      Int.ediv_self he]
    norm_num
  · rw [if_neg (by omega)]
    have habs : (e.natAbs : Int) = e := Int.natAbs_of_nonneg (by omega)
    rw [habs]
    rw [Int.neg_ediv_of_dvd ⟨1, by ring⟩, Int.ediv_self he]

/-- Dividing any JavaScript number by the canonical zero gives a
non-finite value: NaN over NaN and zero numerators, a signed infinity
otherwise — never an exception. -/
theorem jdiv_zero_denom_notFinite (u : JSNum) (b : Int) :
    (jdiv u (fin 0 b)).isFinite = false := by
  cases u with
  | nan => rfl
  | inf s => simp [jdiv, isFinite]
  | fin a c =>
    simp only [jdiv, if_pos rfl]
    by_cases h : a = 0 <;> simp [h, isFinite]

/-- Core of C10, about the shared transform body: whenever the two
perspective coefficients are finite with not both values zero, there is
a finite input on the line c6 x + c7 y + 1 = 0 at which both returned
coordinates are non-finite (the computation is total, so no error is
raised either). -/
theorem perspApplySingularInput (c : JVec) (n6 d6 n7 d7 : Int)
    (h6 : c.getD 6 nan = fin n6 d6) (hd6 : 0 < d6)
    (h7 : c.getD 7 nan = fin n7 d7) (hd7 : 0 < d7)
    (hnz : ¬(n6 = 0 ∧ n7 = 0)) :
    ∃ x y : JSNum, x.isFinite = true ∧ y.isFinite = true ∧
      (fin n6 d6).val * x.val + (fin n7 d7).val * y.val + 1 = 0 ∧
      (perspApply c x y).1.isFinite = false ∧
      (perspApply c x y).2.isFinite = false := by
  by_cases h : n6 = 0
  · have hn7 : n7 ≠ 0 := fun h7z => hnz ⟨h, h7z⟩
    refine ⟨ofInt 0, fin (-d7) n7, rfl, rfl, ?_, ?_, ?_⟩
    · have hd7q : (d7 : ℚ) ≠ 0 := Int.cast_ne_zero.mpr (by omega)
      have hn7q : (n7 : ℚ) ≠ 0 := Int.cast_ne_zero.mpr hn7
      simp only [JSNum.val, h, ofInt]
      push_cast
      field_simp
      ring
    all_goals
      have hdenom : jadd (jadd (jmul (c.getD 6 nan) (ofInt 0))
          (jmul (c.getD 7 nan) (fin (-d7) n7))) (ofInt 1) = fin 0 1 := by
        rw [h6, h7, h]
        have h1 : jmul (fin 0 d6) (ofInt 0) = fin 0 1 := by
          simp only [jmul, ofInt, Int.zero_mul, Int.mul_one]
          exact mkFin_zero_pos d6 hd6
        have h2 : jmul (fin n7 d7) (fin (-d7) n7) = fin (-1) 1 := by
          simp only [jmul]
          have : n7 * -d7 = -(d7 * n7) := by ring
          rw [this]
          exact mkFin_neg_self (d7 * n7) (by positivity)
        rw [h1, h2]
        decide
      simp only [perspApply, hdenom]
      exact jdiv_zero_denom_notFinite _ _
  · refine ⟨fin (-d6) n6, ofInt 0, rfl, rfl, ?_, ?_, ?_⟩
    · have hd6q : (d6 : ℚ) ≠ 0 := Int.cast_ne_zero.mpr (by omega)
      have hn6q : (n6 : ℚ) ≠ 0 := Int.cast_ne_zero.mpr h
      simp only [JSNum.val, ofInt]
      push_cast
      field_simp
      ring
    all_goals
      have hdenom : jadd (jadd (jmul (c.getD 6 nan) (fin (-d6) n6))
          (jmul (c.getD 7 nan) (ofInt 0))) (ofInt 1) = fin 0 1 := by
        rw [h6, h7]
        have h1 : jmul (fin n6 d6) (fin (-d6) n6) = fin (-1) 1 := by
          simp only [jmul]
          have : n6 * -d6 = -(d6 * n6) := by ring
          rw [this]
          exact mkFin_neg_self (d6 * n6) (by positivity)
        have h2 : jmul (fin n7 d7) (ofInt 0) = fin 0 1 := by
          simp only [jmul, ofInt, Int.mul_zero, Int.mul_one]
          exact mkFin_zero_pos d7 hd7
        rw [h1, h2]
        decide
      simp only [perspApply, hdenom]
      exact jdiv_zero_denom_notFinite _ _

/-- C10: PerspT.transform and PerspT.transformInverse do not guard the
perspective division: for every transformer whose relevant coefficient
pair (c6, c7) is finite and not both zero, there is a finite input on
the line c6 x + c7 y + 1 = 0 for which both returned coordinates are
non-finite, in each direction; the embedded arithmetic is total, so no
error is raised. -/
theorem unguardedPerspectiveDivision (t : PerspT) (n6 d6 n7 d7 m6 e6 m7 e7 : Int)
    (hc6 : t.coeffs.getD 6 nan = fin n6 d6) (hd6 : 0 < d6)
    (hc7 : t.coeffs.getD 7 nan = fin n7 d7) (hd7 : 0 < d7)
    (hnz : ¬(n6 = 0 ∧ n7 = 0))
    (hi6 : t.coeffsInv.getD 6 nan = fin m6 e6) (he6 : 0 < e6)
    (hi7 : t.coeffsInv.getD 7 nan = fin m7 e7) (he7 : 0 < e7)
    (hnzInv : ¬(m6 = 0 ∧ m7 = 0)) :
    (∃ x y : JSNum, x.isFinite = true ∧ y.isFinite = true ∧
      (fin n6 d6).val * x.val + (fin n7 d7).val * y.val + 1 = 0 ∧
      (t.transform x y).1.isFinite = false ∧
      (t.transform x y).2.isFinite = false) ∧
    (∃ x y : JSNum, x.isFinite = true ∧ y.isFinite = true ∧
      (fin m6 e6).val * x.val + (fin m7 e7).val * y.val + 1 = 0 ∧
      (t.transformInverse x y).1.isFinite = false ∧
      (t.transformInverse x y).2.isFinite = false) :=
  ⟨perspApplySingularInput t.coeffs n6 d6 n7 d7 hc6 hd6 hc7 hd7 hnz,
   perspApplySingularInput t.coeffsInv m6 e6 m7 e7 hi6 he6 hi7 he7 hnzInv⟩

/-- Witness for C1: dragging corner 0 of the sample warper to the
concave drag point satisfies every hypothesis concretely and the state
snaps back unchanged. -/
theorem concaveCornerDragSnapsBackWitness :
    (0 < sampleWarper.dragCornerControlPoints.length ∧
     sampleWarper.lastValidPositions.getD 0 undefinedVec =
       sampleWarper.dragCornerControlPoints.getD 0 undefinedVec ∧
     isQuadConcave (flattenXY (sampleWarper.dragCornerControlPoints.set 0 concaveDragPoint)) =
       true) ∧
    handleDrag sampleWarper (DragTarget.corner 0) concaveDragPoint = sampleWarper :=
  ⟨⟨by decide, by decide, by decide⟩,
   concaveCornerDragSnapsBack sampleWarper 0 concaveDragPoint (by decide) (by decide) (by decide)⟩

/-- Witness for C2: dragging corner 0 of the sample warper to the convex
drag point satisfies the hypotheses and records the dragged position. -/
theorem validCornerDragPropagatesAllGridPointsWitness :
    (sampleWarper.referenceGridControlPoints.length =
       sampleWarper.dragGridControlPoints.length ∧
     isQuadConcave (flattenXY (sampleWarper.dragCornerControlPoints.set 0 convexDragPoint)) =
       false) ∧
    (handleDrag sampleWarper (DragTarget.corner 0) convexDragPoint).dragCornerControlPoints =
      sampleWarper.dragCornerControlPoints.set 0 convexDragPoint :=
  ⟨⟨by decide, by decide⟩,
   (validCornerDragPropagatesAllGridPoints sampleWarper 0 convexDragPoint
     (by decide) (by decide)).1⟩

/-- Witness for C3: a valid drag of grid point 1 of the sample warper
leaves the corner set untouched. -/
theorem validGridDragUpdatesOnlyItsReferenceWitness :
    isQuadConcave (flattenXY sampleWarper.dragCornerControlPoints) = false ∧
    (handleDrag sampleWarper (DragTarget.grid 1) concaveDragPoint).dragCornerControlPoints =
      sampleWarper.dragCornerControlPoints :=
  ⟨by decide,
   (validGridDragUpdatesOnlyItsReference sampleWarper 1 concaveDragPoint (by decide)).1⟩

/-- Witness for C5: resizing the sample warper from 2 by 2 to 3 by 3 is a
real change and keeps the corner set. -/
theorem gridResizePreservesWarpWitness :
    ¬((max 2 (min 10 (3 : Int))).toNat = sampleWarper.xControlPointAmount ∧
      (max 2 (min 10 (3 : Int))).toNat = sampleWarper.yControlPointAmount) ∧
    (setGridSize sampleWarper 3 3).dragCornerControlPoints =
      sampleWarper.dragCornerControlPoints :=
  ⟨by decide, (gridResizePreservesWarp sampleWarper 3 3 (by decide)).1⟩

/-- Witness for C6: the snapshot with five grid entries against the
sample warper's four is rejected and the state left untouched. -/
theorem mismatchedSnapshotRejectedWitness :
    (warperWithMismatchedSnapshot.storage = some mismatchedSnapshot ∧
     (mismatchedSnapshot.corners.length ≠
        warperWithMismatchedSnapshot.dragCornerControlPoints.length ∨
      mismatchedSnapshot.grid.length ≠
        warperWithMismatchedSnapshot.dragGridControlPoints.length)) ∧
    loadFromStorage warperWithMismatchedSnapshot = warperWithMismatchedSnapshot :=
  ⟨⟨by decide, by decide⟩,
   mismatchedSnapshotRejected warperWithMismatchedSnapshot mismatchedSnapshot
     (by decide) (by decide)⟩

/-- Witness for C8: on the 2 by 2 sample shader grid at column x = 1 and
row y = 0, the virtual point before column 0 is the mirror of the first
two columns. -/
theorem mirrorExtrapolationAtGridEdgesWitness :
    (2 ≤ sampleWarpGrid.uGridSizeX ∧ 2 ≤ sampleWarpGrid.uGridSizeY ∧
     (0 : Int) ≤ 1 ∧ (1 : Int) ≤ sampleWarpGrid.uGridSizeX - 1 ∧
     (0 : Int) ≤ 0 ∧ (0 : Int) ≤ sampleWarpGrid.uGridSizeY - 1) ∧
    getControlPoint sampleWarpGrid (-1) 0 =
      v2sub (v2scale (ofInt 2) (getPoint sampleWarpGrid 0 0)) (getPoint sampleWarpGrid 1 0) :=
  ⟨⟨by decide, by decide, by decide, by decide, by decide, by decide⟩,
   (mirrorExtrapolationAtGridEdges sampleWarpGrid 1 0 (by decide) (by decide)
     (by decide) (by decide) (by decide) (by decide)).1⟩

/-- Witness for C10: the sample transformer has c6 = 1, c7 = 0 in both
coefficient sets, so both directions have a singular finite input. -/
theorem unguardedPerspectiveDivisionWitness :
    (samplePerspT.coeffs.getD 6 nan = fin 1 1 ∧
     samplePerspT.coeffs.getD 7 nan = fin 0 1 ∧
     ¬((1 : Int) = 0 ∧ (0 : Int) = 0)) ∧
    (∃ x y : JSNum, x.isFinite = true ∧ y.isFinite = true ∧
      (fin 1 1).val * x.val + (fin 0 1).val * y.val + 1 = 0 ∧
      (samplePerspT.transform x y).1.isFinite = false ∧
      (samplePerspT.transform x y).2.isFinite = false) :=
  ⟨⟨by decide, by decide, by decide⟩,
   (unguardedPerspectiveDivision samplePerspT 1 1 0 1 1 1 0 1
     (by decide) (by decide) (by decide) (by decide) (by decide)
     (by decide) (by decide) (by decide) (by decide) (by decide)).1⟩
